import Mathlib

/-!
Shallow embedding of `src/furi/core/timer.c` (Momentum firmware software
timer service, a wrapper around the FreeRTOS timer daemon).

Pointers are modelled as natural numbers (`0` = NULL); the 32-bit casts of
the source are explicit `% 2^32` operations.  Kernel primitives
(`xTimerCreate`, `xTimerChangePeriod`, `xTimerReset`, `xTimerStop`,
`xTimerIsTimerActive`, the pend-function-call queue) are external
collaborators: their pass/fail answers enter the model as explicit boolean
oracle parameters, and their state effect on a timer object is modelled
from the spec where the claims need it.  A `furi_check` failure is the
fatal abort path (`Outcome.crash`).
-/

/-- 2^32, the modulus of `uint32_t` arithmetic. -/
def UINT32_MOD : Nat := 4294967296

/-- Truncation to `uint32_t`. -/
def uint32 (x : Nat) : Nat := x % UINT32_MOD

/-- `portMAX_DELAY` for a 32-bit tick type: `0xFFFFFFFF`.
Modelled from the spec: FreeRTOS port header, not under `src/`. -/
def portMAX_DELAY : Nat := 4294967295

/-- `FuriWaitForever = 0xFFFFFFFFU`.
Modelled from the spec: furi kernel header, not under `src/`
(the "unbounded wait" timeout value). -/
def FuriWaitForever : Nat := 4294967295

/-- `(uint32_t)p & ~1U`: clear the low (ownership) bit of a stored pointer. -/
def clearLowBit (x : Nat) : Nat := 2 * (uint32 x / 2)

/-- `(uint32_t)p | 1U`: set the low (ownership) bit of a pointer. -/
def tagOwned (x : Nat) : Nat := uint32 x ||| 1

/-- `(uint32_t)p & 1U` used as a truth value: the ownership bit. -/
def ownedBit (x : Nat) : Bool := x % 2 == 1

/-- Outcome of an operation containing `furi_check` / `furi_crash` calls:
either it returns a value or it aborts the process. -/
inductive Outcome (α : Type) where
  | ok : α → Outcome α
  | crash : Outcome α
deriving DecidableEq, Repr

/-- `FuriStatus` values actually produced by this translation unit. -/
inductive FuriStatus where
  | FuriStatusOk
  | FuriStatusErrorResource
deriving DecidableEq, Repr

/-- `FuriTimerType`: one-shot or periodic.
Modelled from the spec: enum declared in `timer.h`, not under `src/`. -/
inductive FuriTimerType where
  | FuriTimerTypeOnce
  | FuriTimerTypePeriodic
deriving DecidableEq, Repr

/-- `TimerCallback_t`: the Callback Slot record (function pointer and
opaque context pointer, both modelled as addresses). -/
structure TimerCallback_t where
  func : Nat
  context : Nat
deriving DecidableEq, Repr

/-- The observable fields of a FreeRTOS kernel timer object, as this
translation unit reads and writes them: the timer ID field (holding the
tagged Callback Slot pointer), the diagnostic name, the auto-reload flag,
the period, the active/dormant state and the expiry time. -/
structure KTimer where
  id : Nat
  name : String
  autoReload : Bool
  period : Nat
  active : Bool
  expiry : Nat
deriving DecidableEq, Repr

/-- Commands this translation unit queues to the timer daemon. -/
inductive KCmd where
  | changePeriod (ticks : Nat)
  | reset
  | stop
  | delete
deriving DecidableEq, Repr

/-- Modelled from the spec: `xTimerCreate` (FreeRTOS, not under `src/`)
creates the kernel timer object in the dormant (inactive) state with the
given name, period, auto-reload flag and timer-ID value, or fails when
resources are exhausted (`createOk = false`). -/
def xTimerCreate (name : String) (period : Nat) (reload : Bool) (tid : Nat)
    (createOk : Bool) : Option KTimer :=
  if createOk then
    some { id := tid, name := name, autoReload := reload, period := period,
           active := false, expiry := 0 }
  else
    none

/-- Modelled from the spec: a successfully queued `xTimerChangePeriod`
command changes the timer's period and (re)arms it; on failure to queue
the timer is untouched. -/
def xTimerChangePeriodModel (t : KTimer) (ticks : Nat) (ok : Bool) :
    Bool × KTimer :=
  if ok then (true, { t with period := ticks, active := true }) else (false, t)

/-- Modelled from the spec: a successfully queued `xTimerReset` command
restarts the countdown from the full period, arming the timer. -/
def xTimerResetModel (t : KTimer) (ok : Bool) : Bool × KTimer :=
  if ok then (true, { t with active := true }) else (false, t)

/-- Modelled from the spec: a successfully queued `xTimerStop` command
disarms the timer. -/
def xTimerStopModel (t : KTimer) (ok : Bool) : Bool × KTimer :=
  if ok then (true, { t with active := false }) else (false, t)

/-- Modelled from the spec: `xTimerIsTimerActive` reports the timer's
armed/dormant state. -/
def xTimerIsTimerActiveModel (t : KTimer) : Bool := t.active

/-- Result of `furi_timer_alloc`: the created kernel timer object, the
address `malloc` returned for the Callback Slot, and the slot contents. -/
structure AllocResult where
  timer : KTimer
  slotAddr : Nat
  slot : TimerCallback_t
deriving DecidableEq, Repr

/-- `furi_timer_alloc(func, type, context)`.
`irq` is `furi_kernel_is_irq_or_masked()`; `func`/`context` are the
caller's callback pointer and context; `slotAddr` is the address returned
by `malloc(sizeof(TimerCallback_t))`; `appid` is
`furi_thread_get_appid(furi_thread_get_current_id())`; `createOk` is
whether `xTimerCreate` succeeds. -/
def furi_timer_alloc (irq : Bool) (func : Nat) (ttype : FuriTimerType)
    (context slotAddr : Nat) (appid : String) (createOk : Bool) :
    Outcome AllocResult :=
  if irq || func == 0 then
    .crash
  else
    let callb : TimerCallback_t := { func := func, context := context }
    let reload : Bool := ttype != FuriTimerType.FuriTimerTypeOnce
    let tagged : Nat := tagOwned slotAddr
    match xTimerCreate appid portMAX_DELAY reload tagged createOk with
    | some hTimer => .ok { timer := hTimer, slotAddr := slotAddr, slot := callb }
    | none => .crash

/-- `furi_timer_start(instance, ticks)`.
`h` is the handle value (`0` = NULL); `t` the kernel timer object;
`cpOk` whether `xTimerChangePeriod` is queued.  Returns the status, the
timer state afterwards, and the commands queued to the daemon. -/
def furi_timer_start (irq : Bool) (h : Nat) (t : KTimer) (ticks : Nat)
    (cpOk : Bool) : Outcome (FuriStatus × KTimer × List KCmd) :=
  if irq then .crash
  else if h == 0 then .crash
  else if !(decide (ticks < portMAX_DELAY)) then .crash
  else
    let r := xTimerChangePeriodModel t ticks cpOk
    if r.1 then .ok (.FuriStatusOk, r.2, [.changePeriod ticks])
    else .ok (.FuriStatusErrorResource, r.2, [])

/-- `furi_timer_restart(instance, ticks)`.  As `furi_timer_start`, but on
a queued change-period it additionally queues `xTimerReset` (`rsOk`);
the C `&&` short-circuits, so reset is only attempted after a
successful change-period. -/
def furi_timer_restart (irq : Bool) (h : Nat) (t : KTimer) (ticks : Nat)
    (cpOk rsOk : Bool) : Outcome (FuriStatus × KTimer × List KCmd) :=
  if irq then .crash
  else if h == 0 then .crash
  else if !(decide (ticks < portMAX_DELAY)) then .crash
  else
    let r := xTimerChangePeriodModel t ticks cpOk
    if r.1 then
      let r2 := xTimerResetModel r.2 rsOk
      if r2.1 then .ok (.FuriStatusOk, r2.2, [.changePeriod ticks, .reset])
      else .ok (.FuriStatusErrorResource, r2.2, [.changePeriod ticks])
    else .ok (.FuriStatusErrorResource, r.2, [])

/-- `furi_timer_stop(instance)`: queues a stop with unbounded wait and
treats failure to queue as fatal (`furi_check`). -/
def furi_timer_stop (irq : Bool) (h : Nat) (t : KTimer) (stopOk : Bool) :
    Outcome (FuriStatus × KTimer × List KCmd) :=
  if irq then .crash
  else if h == 0 then .crash
  else
    let r := xTimerStopModel t stopOk
    if r.1 then .ok (.FuriStatusOk, r.2, [.stop]) else .crash

/-- `furi_timer_is_running(instance)`: returns `1` when the kernel timer
is active, `0` otherwise. -/
def furi_timer_is_running (irq : Bool) (h : Nat) (t : KTimer) : Outcome Nat :=
  if irq then .crash
  else if h == 0 then .crash
  else .ok (if xTimerIsTimerActiveModel t then 1 else 0)

/-- `furi_timer_get_expire_time(instance)`: returns the kernel expiry
timestamp truncated to `uint32_t`. -/
def furi_timer_get_expire_time (irq : Bool) (h : Nat) (t : KTimer) :
    Outcome Nat :=
  if irq then .crash
  else if h == 0 then .crash
  else .ok (uint32 t.expiry)

/-- Events of the `furi_timer_free` protocol, in execution order. -/
inductive FreeEvent where
  | stopQueued
  | pollObserved (running : Bool)
  | yielded
  | slotFreed (addr : Nat)
  | timerDeleted
deriving DecidableEq, Repr

/-- Result of `furi_timer_free`: a trace of events, a fatal abort, or a
hang (the poll loop did not observe the timer inactive within `fuel`
polls — the source loop is unbounded). -/
inductive FreeResult where
  | ok : List FreeEvent → FreeResult
  | crash : FreeResult
  | hang : FreeResult
deriving DecidableEq, Repr

/-- The loop `while(furi_timer_is_running(instance)) furi_delay_tick(2);`.
`running i` is the kernel's active state at the `i`-th poll (the state
evolves as the daemon runs; it enters the model as an oracle).  Each
iteration that observes `running` yields the processor before the next
poll.  `fuel` bounds the number of polls so the model is total. -/
def pollTrace (running : Nat → Bool) : Nat → Nat → Option (List FreeEvent)
  | 0, _ => none
  | fuel + 1, i =>
    if running i then
      (pollTrace running fuel (i + 1)).map
        (fun tr => .pollObserved true :: .yielded :: tr)
    else
      some [.pollObserved false]

/-- `furi_timer_free(instance)`.
`h` is the handle value; `id` the value of `pvTimerGetTimerID(hTimer)`;
`stopOk` / `deleteOk` whether `xTimerStop` / `xTimerDelete` are queued;
`running` the poll oracle; `fuel` the poll bound. -/
def furi_timer_free (irq : Bool) (h id : Nat) (stopOk deleteOk : Bool)
    (running : Nat → Bool) (fuel : Nat) : FreeResult :=
  if irq then .crash
  else if h == 0 then .crash
  else if ownedBit id then
    if !stopOk then .crash
    else
      match pollTrace running fuel 0 with
      | none => .hang
      | some polls =>
        if deleteOk then
          .ok (.stopQueued :: polls ++ [.slotFreed (clearLowBit id), .timerDeleted])
        else .crash
  else if deleteOk then .ok [.timerDeleted] else .crash

/-- Which underlying pend-function-call primitive was used, with its
timeout argument where one exists. -/
inductive SubmitPath where
  | isr
  | blocking (timeout : Nat)
deriving DecidableEq, Repr

/-- `furi_timer_pending_callback(callback, context, arg)`.
`cb` is the callback pointer; `isrOk` / `blockOk` whether
`xTimerPendFunctionCallFromISR` / `xTimerPendFunctionCall` report
`pdPASS`. -/
def furi_timer_pending_callback (irq : Bool) (cb : Nat)
    (isrOk blockOk : Bool) : Outcome SubmitPath :=
  if cb == 0 then .crash
  else if irq then
    if isrOk then .ok .isr else .crash
  else
    if blockOk then .ok (.blocking FuriWaitForever) else .crash

/-- `FuriTimerThreadPriorityNormal`.
Modelled from the spec: enum declared in `timer.h`, not under `src/`;
only distinctness of the two values matters. -/
def FuriTimerThreadPriorityNormal : Nat := 0

/-- `FuriTimerThreadPriorityElevated`.
Modelled from the spec: enum declared in `timer.h`, not under `src/`. -/
def FuriTimerThreadPriorityElevated : Nat := 1

/-- `furi_timer_set_thread_priority(priority)`.
`daemonHandle` is `xTimerGetTimerDaemonTaskHandle()` (`0` = not yet
started); `cfgTimerPrio` / `cfgMaxPrio` are the FreeRTOS configuration
constants `configTIMER_TASK_PRIORITY` / `configMAX_PRIORITIES`.  Returns
the priority value passed to `vTaskPrioritySet`. -/
def furi_timer_set_thread_priority (irq : Bool) (daemonHandle : Nat)
    (cfgTimerPrio cfgMaxPrio : Nat) (priority : Nat) : Outcome Nat :=
  if irq then .crash
  else if daemonHandle == 0 then .crash
  else if priority == FuriTimerThreadPriorityNormal then .ok cfgTimerPrio
  else if priority == FuriTimerThreadPriorityElevated then .ok (cfgMaxPrio - 1)
  else .crash

/-- The process-wide diagnostic state: `const char* current_timer_name`
(`none` = NULL). -/
structure TCState where
  current_timer_name : Option String
deriving DecidableEq, Repr

/-- `current_timer_name = NULL;` — the file-scope initializer. -/
def initialTCState : TCState := { current_timer_name := none }

/-- `furi_timer_get_current_name()`. -/
def furi_timer_get_current_name (s : TCState) : Option String :=
  s.current_timer_name

/-- Observable event of one Dispatch Trampoline run: the user callback
invocation, recording the function, its context, and the value the
process-wide name slot holds while the callback runs. -/
inductive TCEvent where
  | invoked (func context : Nat) (nameDuring : Option String)
deriving DecidableEq, Repr

/-- `TimerCallback(hTimer)` — the Dispatch Trampoline.
`tid` is `pvTimerGetTimerID(hTimer)`; `tname` is `pcTimerGetName(hTimer)`;
`heap` gives the `TimerCallback_t` stored at an address (reading the C
heap is total); `s` is the process-wide diagnostic state. -/
def TimerCallback (tid : Nat) (tname : String)
    (heap : Nat → TimerCallback_t) (s : TCState) : TCState × List TCEvent :=
  let callb : Nat := clearLowBit tid
  if callb != 0 then
    let slot := heap callb
    let during : TCState := { current_timer_name := some tname }
    let ev := TCEvent.invoked slot.func slot.context
      (furi_timer_get_current_name during)
    ({ current_timer_name := none }, [ev])
  else
    (s, [])

/-- Setting the low bit of an even number adds one. -/
theorem lor_one_of_even (a : Nat) (h : a % 2 = 0) : a ||| 1 = a + 1 := by
  apply Nat.eq_of_testBit_eq
  intro i
  rw [Nat.testBit_or]
  cases i with
  | zero => simp [Nat.testBit_zero]; omega
  | succ j =>
    have hb : Nat.testBit 1 (j + 1) = false := by simp [Nat.testBit_succ]
    have hd : (a + 1) / 2 = a / 2 := by omega
    rw [hb, Bool.or_false, Nat.testBit_succ, Nat.testBit_succ, hd]

/-- A number with its low bit set is odd. -/
theorem lor_one_mod_two (x : Nat) : (x ||| 1) % 2 = 1 := by
  have h : (x ||| 1).testBit 0 = true := by simp [Nat.testBit_or]
  simpa [Nat.testBit_zero] using h

/-- Masking the ownership bit off a tagged aligned pointer recovers the
original address. -/
theorem clearLowBit_tagOwned (a : Nat) (h2 : a % 2 = 0) (hlt : a < UINT32_MOD) :
    clearLowBit (tagOwned a) = a := by
  unfold clearLowBit tagOwned uint32 UINT32_MOD at *
  rw [Nat.mod_eq_of_lt hlt, lor_one_of_even a h2]
  omega

/-- A tagged pointer always has the ownership bit set. -/
theorem ownedBit_tagOwned (a : Nat) : ownedBit (tagOwned a) = true := by
  simp [ownedBit, tagOwned, lor_one_mod_two]

/-- C3: for every timer successfully created by `furi_timer_alloc`, the
Callback Slot reference stored in the kernel timer object is never null:
after masking off the ownership bit, the recovered slot pointer equals the
(non-null) `malloc` address and the slot holds the caller's callback
function and context.  Hypotheses on `slotAddr` are the allocator's
contract: a non-null address, aligned to at least 2, within the 32-bit
address space. -/
theorem furi_timer_alloc_slot_nonnull_spec
    (irq : Bool) (func : Nat) (ttype : FuriTimerType)
    (context slotAddr : Nat) (appid : String) (createOk : Bool)
    (r : AllocResult)
    (hnz : slotAddr ≠ 0) (hal : slotAddr % 2 = 0) (hlt : slotAddr < UINT32_MOD)
    (h : furi_timer_alloc irq func ttype context slotAddr appid createOk =
      .ok r) :
    clearLowBit r.timer.id = slotAddr ∧ clearLowBit r.timer.id ≠ 0 ∧
      r.slot.func = func ∧ r.slot.context = context := by
  cases hcase : (irq || func == 0) <;> cases createOk <;>
    simp [furi_timer_alloc, xTimerCreate, hcase] at h
  subst h
  dsimp only
  rw [clearLowBit_tagOwned slotAddr hal hlt]
  exact ⟨rfl, hnz, rfl, rfl⟩

/-- C3 witness: `furi_timer_alloc` at a concrete input. -/
theorem furi_timer_alloc_slot_nonnull_witness :
    (4 : Nat) ≠ 0 ∧ (4 : Nat) % 2 = 0 ∧ (4 : Nat) < UINT32_MOD ∧
    (clearLowBit
        { timer := { id := tagOwned 4, name := "app", autoReload := true,
                     period := portMAX_DELAY, active := false, expiry := 0 },
          slotAddr := 4,
          slot := { func := 7, context := 9 } : AllocResult }.timer.id = 4 ∧
      clearLowBit
        { timer := { id := tagOwned 4, name := "app", autoReload := true,
                     period := portMAX_DELAY, active := false, expiry := 0 },
          slotAddr := 4,
          slot := { func := 7, context := 9 } : AllocResult }.timer.id ≠ 0 ∧
      ({ func := 7, context := 9 } : TimerCallback_t).func = 7 ∧
      ({ func := 7, context := 9 } : TimerCallback_t).context = 9) :=
  ⟨by decide, by decide, by decide,
    furi_timer_alloc_slot_nonnull_spec false 7
      FuriTimerType.FuriTimerTypePeriodic 9 4 "app" true _
      (by decide) (by decide) (by decide) (by rfl)⟩

/-- A concrete kernel timer object used by witnesses and counterexamples. -/
def kt0 : KTimer :=
  { id := 5, name := "app", autoReload := false, period := 4294967295,
    active := false, expiry := 0 }

/-- C4: every Lifecycle Manager operation (allocate, free, start, restart,
stop, is-running, get-expiry-time) and the Priority Controller operation
abort fatally when invoked from interrupt or masked-interrupt context
(`irq = true`); the Deferred Call Bridge is the one exposed operation that
proceeds in interrupt context. -/
theorem irq_context_fatal_spec
    (func : Nat) (ttype : FuriTimerType) (context slotAddr : Nat)
    (appid : String) (createOk : Bool) (h id ticks : Nat) (t : KTimer)
    (b1 b2 : Bool) (running : Nat → Bool) (fuel : Nat)
    (dh ctp cmp p : Nat) (cb : Nat) :
    furi_timer_alloc true func ttype context slotAddr appid createOk =
        .crash ∧
    furi_timer_free true h id b1 b2 running fuel = .crash ∧
    furi_timer_start true h t ticks b1 = .crash ∧
    furi_timer_restart true h t ticks b1 b2 = .crash ∧
    furi_timer_stop true h t b1 = .crash ∧
    furi_timer_is_running true h t = .crash ∧
    furi_timer_get_expire_time true h t = .crash ∧
    furi_timer_set_thread_priority true dh ctp cmp p = .crash ∧
    (cb ≠ 0 → furi_timer_pending_callback true cb true b2 = .ok .isr) := by
  refine ⟨?_, ?_, ?_, ?_, ?_, ?_, ?_, ?_, ?_⟩
  · simp [furi_timer_alloc]
  · simp [furi_timer_free]
  · simp [furi_timer_start]
  · simp [furi_timer_restart]
  · simp [furi_timer_stop]
  · simp [furi_timer_is_running]
  · simp [furi_timer_get_expire_time]
  · simp [furi_timer_set_thread_priority]
  · intro hcb
    simp [furi_timer_pending_callback, hcb]

/-- C4 witness: the interrupt-context rules at concrete inputs. -/
theorem irq_context_fatal_witness :
    furi_timer_alloc true 7 FuriTimerType.FuriTimerTypeOnce 9 4 "app" true =
        .crash ∧
    furi_timer_free true 1 5 true true (fun _ => false) 3 = .crash ∧
    furi_timer_start true 1 kt0 10 true = .crash ∧
    furi_timer_restart true 1 kt0 10 true true = .crash ∧
    furi_timer_stop true 1 kt0 true = .crash ∧
    furi_timer_is_running true 1 kt0 = .crash ∧
    furi_timer_get_expire_time true 1 kt0 = .crash ∧
    furi_timer_set_thread_priority true 1 2 32 0 = .crash ∧
    furi_timer_pending_callback true 3 true true = .ok .isr := by
  have h := irq_context_fatal_spec 7 FuriTimerType.FuriTimerTypeOnce 9 4
    "app" true 1 5 10 kt0 true true (fun _ => false) 3 1 2 32 0 3
  exact ⟨h.1, h.2.1, h.2.2.1, h.2.2.2.1, h.2.2.2.2.1, h.2.2.2.2.2.1,
    h.2.2.2.2.2.2.1, h.2.2.2.2.2.2.2.1,
    h.2.2.2.2.2.2.2.2 (by decide)⟩

/-- C5: the Dispatch Trampoline invokes the user callback exactly when
the slot pointer recovered by masking the ownership bit off the timer-ID
field is non-null; when it is null the trampoline returns with no
invocation and the state untouched (and it is a total function — no
crash). -/
theorem TimerCallback_null_guard_spec
    (tid : Nat) (tname : String) (heap : Nat → TimerCallback_t)
    (s : TCState) :
    TimerCallback tid tname heap s =
      if clearLowBit tid = 0 then (s, [])
      else ({ current_timer_name := none },
        [.invoked (heap (clearLowBit tid)).func
          (heap (clearLowBit tid)).context (some tname)]) := by
  by_cases hz : clearLowBit tid = 0 <;>
    simp [TimerCallback, furi_timer_get_current_name, hz]

/-- C6: during a Dispatch Trampoline run with a non-null recovered slot,
the process-wide diagnostic-name slot is set to the firing timer's kernel
name for the duration of the user callback invocation and holds null
immediately after the callback returns; at rest (file-scope initializer)
it also holds null. -/
theorem TimerCallback_name_lifecycle_spec
    (tid : Nat) (tname : String) (heap : Nat → TimerCallback_t)
    (s : TCState) (hnz : clearLowBit tid ≠ 0) :
    furi_timer_get_current_name initialTCState = none ∧
    (TimerCallback tid tname heap s).2 =
      [.invoked (heap (clearLowBit tid)).func
        (heap (clearLowBit tid)).context (some tname)] ∧
    furi_timer_get_current_name (TimerCallback tid tname heap s).1 =
      none := by
  refine ⟨rfl, ?_, ?_⟩ <;>
    simp [TimerCallback, furi_timer_get_current_name, initialTCState, hnz]

/-- C6 witness: the name lifecycle at a concrete input. -/
theorem TimerCallback_name_lifecycle_witness :
    clearLowBit 5 ≠ 0 ∧
    (furi_timer_get_current_name initialTCState = none ∧
      (TimerCallback 5 "tmr" (fun _ => { func := 7, context := 9 })
          initialTCState).2 =
        [.invoked (7 : Nat) (9 : Nat) (some "tmr")] ∧
      furi_timer_get_current_name
        (TimerCallback 5 "tmr" (fun _ => { func := 7, context := 9 })
          initialTCState).1 = none) := by
  refine ⟨by decide, ?_⟩
  have h := TimerCallback_name_lifecycle_spec 5 "tmr"
    (fun _ => { func := 7, context := 9 }) initialTCState (by decide)
  exact h

/-- C7: `furi_timer_pending_callback` with a non-null function submits
via the interrupt-safe primitive (no timeout) in interrupt or masked
context and via the blocking primitive with an unbounded wait
(`FuriWaitForever`) otherwise; in either case a failure to enqueue
aborts fatally instead of returning an error. -/
theorem pending_callback_path_spec (irq : Bool) (cb : Nat)
    (isrOk blockOk : Bool) (hcb : cb ≠ 0) :
    furi_timer_pending_callback irq cb isrOk blockOk =
      if irq then (if isrOk then .ok .isr else .crash)
      else if blockOk then .ok (.blocking FuriWaitForever) else .crash := by
  cases irq <;> simp [furi_timer_pending_callback, hcb]

/-- C7 witness: both submission paths at concrete inputs. -/
theorem pending_callback_path_witness :
    (3 : Nat) ≠ 0 ∧
    furi_timer_pending_callback true 3 false true =
      (if true then (if false then .ok .isr else .crash)
       else if true then .ok (.blocking FuriWaitForever) else .crash) :=
  ⟨by decide, pending_callback_path_spec true 3 false true (by decide)⟩

/-- C8: `furi_timer_set_thread_priority` sets the daemon's priority to
`configTIMER_TASK_PRIORITY` for `Normal`, to `configMAX_PRIORITIES - 1`
for `Elevated`, aborts fatally on any other level value, and aborts
fatally when the daemon task handle is null (daemon not yet started). -/
theorem set_thread_priority_spec (dh ctp cmp p : Nat) (hdh : dh ≠ 0) :
    (furi_timer_set_thread_priority false dh ctp cmp p =
      if p = FuriTimerThreadPriorityNormal then .ok ctp
      else if p = FuriTimerThreadPriorityElevated then .ok (cmp - 1)
      else .crash) ∧
    furi_timer_set_thread_priority false 0 ctp cmp p = .crash := by
  constructor
  · by_cases h1 : p = FuriTimerThreadPriorityNormal <;>
      by_cases h2 : p = FuriTimerThreadPriorityElevated <;>
      simp [furi_timer_set_thread_priority, hdh, h1, h2]
  · simp [furi_timer_set_thread_priority]

/-- C8 witness: priority setting at concrete inputs (elevated level,
32 priority levels). -/
theorem set_thread_priority_witness :
    (7 : Nat) ≠ 0 ∧
    ((furi_timer_set_thread_priority false 7 2 32 1 =
      if (1 : Nat) = FuriTimerThreadPriorityNormal then .ok 2
      else if (1 : Nat) = FuriTimerThreadPriorityElevated then .ok (32 - 1)
      else .crash) ∧
    furi_timer_set_thread_priority false 0 2 32 1 = .crash) :=
  ⟨by decide, set_thread_priority_spec 7 2 32 1 (by decide)⟩

/-- C9: a timer returned by a successful `furi_timer_alloc` is disarmed:
its kernel object is inactive, it was created with the never-fire initial
period `portMAX_DELAY`, and `furi_timer_is_running` reports 0 on it. -/
theorem alloc_disarmed_spec
    (irq : Bool) (func : Nat) (ttype : FuriTimerType)
    (context slotAddr : Nat) (appid : String) (createOk : Bool)
    (r : AllocResult) (h : Nat)
    (ha : furi_timer_alloc irq func ttype context slotAddr appid createOk =
      .ok r) (hh : h ≠ 0) :
    r.timer.active = false ∧ r.timer.period = portMAX_DELAY ∧
    furi_timer_is_running false h r.timer = .ok 0 := by
  cases hcase : (irq || func == 0) <;> cases createOk <;>
    simp [furi_timer_alloc, xTimerCreate, hcase] at ha
  subst ha
  refine ⟨rfl, rfl, ?_⟩
  simp [furi_timer_is_running, xTimerIsTimerActiveModel, hh]

/-- C9 witness: a freshly allocated timer is not running. -/
theorem alloc_disarmed_witness :
    ({ timer := { id := tagOwned 4, name := "app", autoReload := false,
                  period := portMAX_DELAY, active := false, expiry := 0 },
       slotAddr := 4,
       slot := { func := 7, context := 9 } : AllocResult }.timer.active =
        false ∧
     ({ timer := { id := tagOwned 4, name := "app", autoReload := false,
                   period := portMAX_DELAY, active := false, expiry := 0 },
        slotAddr := 4,
        slot := { func := 7, context := 9 } : AllocResult }.timer.period =
        portMAX_DELAY) ∧
     furi_timer_is_running false 1
       { timer := { id := tagOwned 4, name := "app", autoReload := false,
                    period := portMAX_DELAY, active := false, expiry := 0 },
         slotAddr := 4,
         slot := { func := 7, context := 9 } : AllocResult }.timer =
        .ok 0) :=
  alloc_disarmed_spec false 7 FuriTimerType.FuriTimerTypeOnce 9 4 "app"
    true _ 1 (by rfl) (by decide)

/-- C2 counterexample: `furi_timer_restart` can return the resource-error
status while the timer has nevertheless been affected — the change-period
command was queued (period changed to 7, timer armed) and only the
subsequent reset failed to queue.  This refutes "on a resource-error
return the timer itself remains valid and unaffected" as stated. -/
theorem restart_error_affects_timer_cex :
    furi_timer_restart false 1 kt0 7 true false =
      .ok (.FuriStatusErrorResource,
        { kt0 with period := 7, active := true }, [.changePeriod 7]) ∧
    ({ kt0 with period := 7, active := true } : KTimer) ≠ kt0 := by
  constructor
  · rfl
  · decide

/-- C2 (amended): `furi_timer_start` returns success exactly when the
change-period command is queued and the resource-error status otherwise,
leaving the timer untouched on error; `furi_timer_restart` returns
success exactly when both the change-period and the reset commands are
queued, and the resource-error status otherwise — on error the timer is
untouched when change-period failed to queue, but keeps the new period
(and is armed) when change-period was queued and only the reset failed;
the timer object remains a valid handle in every error case. -/
theorem start_restart_status_spec (h : Nat) (t : KTimer) (ticks : Nat)
    (cpOk rsOk : Bool) (hh : h ≠ 0) (ht : ticks < portMAX_DELAY) :
    (furi_timer_start false h t ticks cpOk =
      if cpOk then
        .ok (.FuriStatusOk, { t with period := ticks, active := true },
          [.changePeriod ticks])
      else .ok (.FuriStatusErrorResource, t, [])) ∧
    (furi_timer_restart false h t ticks cpOk rsOk =
      if cpOk && rsOk then
        .ok (.FuriStatusOk, { t with period := ticks, active := true },
          [.changePeriod ticks, .reset])
      else if cpOk then
        .ok (.FuriStatusErrorResource,
          { t with period := ticks, active := true }, [.changePeriod ticks])
      else .ok (.FuriStatusErrorResource, t, [])) := by
  cases cpOk <;> cases rsOk <;>
    simp [furi_timer_start, furi_timer_restart, xTimerChangePeriodModel,
      xTimerResetModel, hh, ht]

/-- C2 witness: start and restart statuses at a concrete input. -/
theorem start_restart_status_witness :
    (1 : Nat) ≠ 0 ∧ (7 : Nat) < portMAX_DELAY ∧
    ((furi_timer_start false 1 kt0 7 true =
      if true then
        .ok (.FuriStatusOk, { kt0 with period := 7, active := true },
          [.changePeriod 7])
      else .ok (.FuriStatusErrorResource, kt0, [])) ∧
    (furi_timer_restart false 1 kt0 7 true false =
      if true && false then
        .ok (.FuriStatusOk, { kt0 with period := 7, active := true },
          [.changePeriod 7, .reset])
      else if true then
        .ok (.FuriStatusErrorResource,
          { kt0 with period := 7, active := true }, [.changePeriod 7])
      else .ok (.FuriStatusErrorResource, kt0, []))) :=
  ⟨by decide, by decide,
    start_restart_status_spec 1 kt0 7 true false (by decide) (by decide)⟩

/-- The observation sequence of a poll loop that sees the timer running
`n` times (yielding after each) and then observes it inactive. -/
def pollSeq : Nat → List FreeEvent
  | 0 => [.pollObserved false]
  | n + 1 => .pollObserved true :: .yielded :: pollSeq n

/-- Characterization of the poll loop: a terminating run observes
`running` true at every poll before some index `n`, observes it false at
`n`, and its trace is exactly `pollSeq n`. -/
theorem pollTrace_spec (running : Nat → Bool) :
    ∀ (fuel i : Nat) (tr : List FreeEvent),
      pollTrace running fuel i = some tr →
      ∃ n, (∀ m, m < n → running (i + m) = true) ∧
        running (i + n) = false ∧ tr = pollSeq n := by
  intro fuel
  induction fuel with
  | zero =>
    intro i tr h
    simp [pollTrace] at h
  | succ f ih =>
    intro i tr h
    by_cases hri : running i = true
    · simp only [pollTrace, hri, if_pos] at h
      rcases Option.map_eq_some'.mp h with ⟨tr', htr', rfl⟩
      rcases ih (i + 1) tr' htr' with ⟨n, hall, hfalse, rfl⟩
      refine ⟨n + 1, ?_, ?_, rfl⟩
      · intro m hm
        cases m with
        | zero => simpa using hri
        | succ k =>
          have hk : k < n := by omega
          have heq : i + (k + 1) = (i + 1) + k := by omega
          rw [heq]
          exact hall k hk
      · have heq : i + (n + 1) = (i + 1) + n := by omega
        rw [heq]
        exact hfalse
    · simp only [pollTrace, hri, if_neg, Bool.not_eq_true,
        Option.some.injEq] at h
      refine ⟨0, by omega, by simpa using hri, ?_⟩
      rw [← h]
      rfl

/-- C1: when `furi_timer_free` is given a handle whose stored ownership
bit is set and returns (rather than crashing or hanging), the stop
command was queued successfully (`stopOk`), the timer was then observed
inactive by repeated polling with yields (all polls before `n` saw it
running, poll `n` saw it inactive), the Callback Slot is released only
after that observation, and the kernel timer object is deleted only after
the slot is released.  `inFlight i` models whether a callback for this
timer is executing on the daemon thread at poll `i`; the hypothesis `hk`
is the kernel invariant the design relies on (inactive is only reported
after any in-flight callback has returned), so the poll that lets Free
return is one at which no callback is executing. -/
theorem free_owned_safe_release_spec
    (h id : Nat) (stopOk deleteOk : Bool) (running : Nat → Bool)
    (fuel : Nat) (tr : List FreeEvent) (inFlight : Nat → Bool)
    (hb : ownedBit id = true)
    (hk : ∀ i, running i = false → inFlight i = false)
    (hr : furi_timer_free false h id stopOk deleteOk running fuel =
      .ok tr) :
    stopOk = true ∧ deleteOk = true ∧
    ∃ n, (∀ m, m < n → running m = true) ∧ running n = false ∧
      inFlight n = false ∧
      tr = .stopQueued :: pollSeq n ++
        [.slotFreed (clearLowBit id), .timerDeleted] := by
  by_cases hh : h = 0
  · simp [furi_timer_free, hh] at hr
  cases stopOk with
  | false => simp [furi_timer_free, hh, hb] at hr
  | true =>
    cases hpt : pollTrace running fuel 0 with
    | none => simp [furi_timer_free, hh, hb, hpt] at hr
    | some polls =>
      cases deleteOk with
      | false => simp [furi_timer_free, hh, hb, hpt] at hr
      | true =>
        simp only [furi_timer_free, hh, hb, hpt] at hr
        simp at hr
        rcases pollTrace_spec running fuel 0 polls hpt with
          ⟨n, hall, hfalse, rfl⟩
        refine ⟨rfl, rfl, n, ?_, ?_, ?_, ?_⟩
        · intro m hm
          simpa using hall m hm
        · simpa using hfalse
        · exact hk n (by simpa using hfalse)
        · rw [if_neg hh] at hr
          injection hr with h2
          rw [← h2]
          simp

/-- C1 witness: a concrete free of an owned timer (id 5, bit set) whose
timer stays running for two polls; the trace released the slot (address
4) only after the stop and the inactive observation, and deleted the
kernel timer last. -/
theorem free_owned_safe_release_witness :
    true = true ∧ true = true ∧
    ∃ n, (∀ m, m < n → (fun i => decide (i < 2)) m = true) ∧
      (fun i => decide (i < 2)) n = false ∧
      (fun i => decide (i < 2)) n = false ∧
      ([FreeEvent.stopQueued, .pollObserved true, .yielded,
        .pollObserved true, .yielded, .pollObserved false, .slotFreed 4,
        .timerDeleted] : List FreeEvent) =
        .stopQueued :: pollSeq n ++
          [.slotFreed (clearLowBit 5), .timerDeleted] :=
  free_owned_safe_release_spec 1 5 true true (fun i => decide (i < 2)) 5
    [FreeEvent.stopQueued, .pollObserved true, .yielded, .pollObserved true,
     .yielded, .pollObserved false, .slotFreed 4, .timerDeleted]
    (fun i => decide (i < 2)) (by decide) (fun _ h => h) (by rfl)

/-- C10: the low bit of the stored timer-ID pointer is the dispatch
condition in `furi_timer_free`: `furi_timer_alloc` always stores the
pointer with the low bit set; a handle whose stored pointer has a clear
low bit is deleted without being stopped, polled, or having its slot
freed; a set low bit takes the stop / poll-until-inactive / free-slot /
delete path. -/
theorem ownership_bit_dispatch_spec
    (irq : Bool) (func : Nat) (ttype : FuriTimerType)
    (context slotAddr : Nat) (appid : String) (createOk : Bool)
    (r : AllocResult) (h id : Nat) (stopOk deleteOk : Bool)
    (running : Nat → Bool) (fuel : Nat) (polls : List FreeEvent)
    (ha : furi_timer_alloc irq func ttype context slotAddr appid createOk =
      .ok r)
    (hh : h ≠ 0) :
    ownedBit r.timer.id = true ∧
    (ownedBit id = false →
      furi_timer_free false h id stopOk deleteOk running fuel =
        if deleteOk then .ok [.timerDeleted] else .crash) ∧
    (ownedBit id = true → pollTrace running fuel 0 = some polls →
      furi_timer_free false h id true deleteOk running fuel =
        if deleteOk then
          .ok (.stopQueued :: polls ++
            [.slotFreed (clearLowBit id), .timerDeleted])
        else .crash) := by
  refine ⟨?_, ?_, ?_⟩
  · cases hcase : (irq || func == 0) <;> cases createOk <;>
      simp [furi_timer_alloc, xTimerCreate, hcase] at ha
    subst ha
    exact ownedBit_tagOwned slotAddr
  · intro hbit
    cases deleteOk <;> simp [furi_timer_free, hh, hbit]
  · intro hbit hpt
    cases deleteOk <;> simp [furi_timer_free, hh, hbit, hpt]

/-- C10 witness: alloc at address 4 stores an odd (tagged) pointer;
freeing a handle whose stored pointer 4 has the bit clear yields the
delete-only trace. -/
theorem ownership_bit_dispatch_witness :
    ownedBit
      ({ timer := { id := tagOwned 4, name := "app", autoReload := false,
                    period := portMAX_DELAY, active := false, expiry := 0 },
         slotAddr := 4,
         slot := { func := 7, context := 9 } : AllocResult }).timer.id =
      true ∧
    (ownedBit 4 = false →
      furi_timer_free false 1 4 true true (fun _ => false) 1 =
        if true then .ok [.timerDeleted] else .crash) ∧
    (ownedBit 4 = true →
      pollTrace (fun _ => false) 1 0 = some [.pollObserved false] →
      furi_timer_free false 1 4 true true (fun _ => false) 1 =
        if true then
          .ok (.stopQueued :: [FreeEvent.pollObserved false] ++
            [.slotFreed (clearLowBit 4), .timerDeleted])
        else .crash) :=
  ownership_bit_dispatch_spec false 7 FuriTimerType.FuriTimerTypeOnce 9 4
    "app" true _ 1 4 true true (fun _ => false) 1 [.pollObserved false]
    (by rfl) (by decide)
